import Mathlib

/- Shallow embedding of the resonator-spectroscopy outcome-classification
pipeline of `qualibration_graphs/superconducting/calibration_utils/
resonator_spectroscopy/analysis.py`.  Python floats are modelled as
rationals, Python ints as integers, Python strings as `String`.  Fallible
dictionary/attribute accesses are modelled with `Except`. -/

/-- Module constant `SNR_MIN` of analysis.py. -/
def SNR_MIN : ℚ := 2.5

/-- Module constant `SNR_DISTORTED` of analysis.py. -/
def SNR_DISTORTED : ℚ := 5.0

/-- Module constant `ASYMMETRY_MIN` of analysis.py. -/
def ASYMMETRY_MIN : ℚ := 0.4

/-- Module constant `ASYMMETRY_MAX` of analysis.py. -/
def ASYMMETRY_MAX : ℚ := 2.5

/-- Module constant `SKEWNESS_MAX` of analysis.py. -/
def SKEWNESS_MAX : ℚ := 1.5

/-- Module constant `DISTORTED_FRACTION_LOW_SNR` of analysis.py. -/
def DISTORTED_FRACTION_LOW_SNR : ℚ := 0.2

/-- Module constant `DISTORTED_FRACTION_HIGH_SNR` of analysis.py. -/
def DISTORTED_FRACTION_HIGH_SNR : ℚ := 0.3

/-- Module constant `FWHM_ABSOLUTE_THRESHOLD_HZ` of analysis.py. -/
def FWHM_ABSOLUTE_THRESHOLD_HZ : ℚ := 1e6

/-- Module constant `NRMSE_THRESHOLD` of analysis.py. -/
def NRMSE_THRESHOLD : ℚ := 0.14

/-- Module constant `R_SQUARED_THRESHOLD` of analysis.py. -/
def R_SQUARED_THRESHOLD : ℚ := 0.90

/-- The metrics dictionary built by `_extract_qubit_fit_metrics` and consumed
by `_determine_resonator_outcome`.  `asymmetry` and `skewness` are optional
because `_is_peak_shape_distorted` guards them with `is not None`. -/
structure Metrics where
  num_peaks : ℤ
  snr : ℚ
  fwhm : ℚ
  sweep_span : ℚ
  asymmetry : Option ℚ
  skewness : Option ℚ
  opx_bandwidth_artifact : Bool
  nrmse : ℚ
  r_squared : ℚ
deriving DecidableEq

/-- The eight threshold keyword parameters of `_determine_resonator_outcome`
(the function has no parameters for the nrmse / r_squared thresholds). -/
structure Thresholds where
  snr_min : ℚ
  snr_distorted : ℚ
  asymmetry_min : ℚ
  asymmetry_max : ℚ
  skewness_max : ℚ
  distorted_fraction_low_snr : ℚ
  distorted_fraction_high_snr : ℚ
  fwhm_absolute_threshold : ℚ
deriving DecidableEq

/-- The default values of the eight keyword parameters of
`_determine_resonator_outcome` (the module constants). -/
def defaultThresholds : Thresholds :=
  ⟨SNR_MIN, SNR_DISTORTED, ASYMMETRY_MIN, ASYMMETRY_MAX, SKEWNESS_MAX,
   DISTORTED_FRACTION_LOW_SNR, DISTORTED_FRACTION_HIGH_SNR, FWHM_ABSOLUTE_THRESHOLD_HZ⟩

/-- Embedding of `_is_peak_shape_distorted` (analysis.py lines 350-382). -/
def isPeakShapeDistorted (asymmetry skewness : Option ℚ)
    (asymmetry_min asymmetry_max skewness_max : ℚ) : Bool :=
  let asymmetry_bad :=
    match asymmetry with
    | none => false
    | some a => decide (a < asymmetry_min) || decide (a > asymmetry_max)
  let skewness_bad :=
    match skewness with
    | none => false
    | some s => decide (|s| > skewness_max)
  asymmetry_bad || skewness_bad

/-- Embedding of `_is_peak_too_wide` (analysis.py lines 385-427).  Python
short-circuits `sweep_span > 0 and fwhm / sweep_span > distorted_fraction`,
so the division is only reached when `sweep_span > 0`; Lean's total `/` on ℚ
agrees because the conjunct is discarded when `sweep_span ≤ 0`. -/
def isPeakTooWide (fwhm sweep_span snr snr_distorted
    distorted_fraction_low_snr distorted_fraction_high_snr
    fwhm_absolute_threshold : ℚ) : Bool :=
  let distorted_fraction :=
    if snr < snr_distorted then distorted_fraction_low_snr else distorted_fraction_high_snr
  let relative_width_bad :=
    decide (sweep_span > 0) && decide (fwhm / sweep_span > distorted_fraction)
  let absolute_width_bad := decide (fwhm > fwhm_absolute_threshold)
  relative_width_bad || absolute_width_bad

/-- Embedding of `_determine_resonator_outcome` (analysis.py lines 260-347).
Note that the first check reads the module constants `R_SQUARED_THRESHOLD`
and `NRMSE_THRESHOLD` (line 311), not parameters. -/
def determineResonatorOutcome (metrics : Metrics) (t : Thresholds) : String :=
  if metrics.r_squared > R_SQUARED_THRESHOLD ∧ metrics.nrmse < NRMSE_THRESHOLD then
    "successful"
  else if metrics.snr < t.snr_min then
    "The SNR isn't large enough, consider increasing the number of shots"
  else if metrics.opx_bandwidth_artifact then
    "OPX bandwidth artifact detected, check your experiment bandwidth settings"
  else if metrics.num_peaks > 1 then
    "Several peaks were detected"
  else if metrics.num_peaks = 0 then
    (if metrics.snr < t.snr_min then
      "The SNR isn't large enough, consider increasing the number of shots and ensure you are looking at the correct frequency range"
    else
      "No peaks were detected, consider changing the frequency range")
  else if isPeakShapeDistorted metrics.asymmetry metrics.skewness
      t.asymmetry_min t.asymmetry_max t.skewness_max then
    "The peak shape is distorted"
  else if isPeakTooWide metrics.fwhm metrics.sweep_span metrics.snr
      t.snr_distorted t.distorted_fraction_low_snr t.distorted_fraction_high_snr
      t.fwhm_absolute_threshold then
    (if metrics.snr < t.snr_distorted then
      "The SNR isn't large enough and the peak shape is distorted"
    else
      "Distorted peak detected")
  else
    "successful"

/-- Every string literal returned by `_determine_resonator_outcome`. -/
def outcomeStrings : List String :=
  ["successful",
   "The SNR isn't large enough, consider increasing the number of shots",
   "OPX bandwidth artifact detected, check your experiment bandwidth settings",
   "Several peaks were detected",
   "The SNR isn't large enough, consider increasing the number of shots and ensure you are looking at the correct frequency range",
   "No peaks were detected, consider changing the frequency range",
   "The peak shape is distorted",
   "The SNR isn't large enough and the peak shape is distorted",
   "Distorted peak detected"]

/-- Scenario A of the spec: a statistically good circle fit. -/
def scenA : Metrics := ⟨1, 10, 100000, 100000000, some 1, some 0.1, false, 0.05, 0.95⟩

/-- Scenario E of the spec: fit poor, shape fine, absolutely too wide. -/
def scenE : Metrics := ⟨1, 10, 2000000, 10000000, some 1, some 0.1, false, 0.3, 0.5⟩

/-- A record with zero detected peaks that reaches rule 5. -/
def scenNoPeaks : Metrics := ⟨0, 10, 100000, 100000000, some 1, some 0.1, false, 0.3, 0.5⟩

/-- The external S21 resonator fit object: the core only reads its
`quality_metrics` dictionary (modelled as an association list). -/
structure S21Resonator where
  quality_metrics : List (String × ℚ)

/-- Python dictionary lookup on the quality-metrics association list. -/
def lookupMetric (l : List (String × ℚ)) (key : String) : Option ℚ :=
  match l with
  | [] => none
  | (k, v) :: rest => if k = key then some v else lookupMetric rest key

/-- The exceptions Python raises in `_extract_qubit_fit_metrics`: attribute
access on a dataset variable that does not exist raises `AttributeError`
(payload: the attribute name only), dictionary indexing with a missing key
raises `KeyError` (payload: the key only).  Neither names the qubit. -/
inductive PyError where
  | attributeError (name : String)
  | keyError (key : String)
deriving DecidableEq

/-- The fit dataset produced by the peak-detection stage.  In xarray a data
variable either exists for all qubits or for none, so each variable is an
optional total map from qubit name to value; `detuning` / `full_freq` model
the dataset-wide coordinate axes (present iff the dimension exists). -/
structure FitDataset where
  qubits : List String
  num_peaks : Option (String → ℤ)
  snr : Option (String → ℚ)
  fwhm : Option (String → ℚ)
  asymmetry : Option (String → ℚ)
  skewness : Option (String → ℚ)
  opx_bandwidth_artifact : Option (String → Bool)
  detuning : Option (List ℚ)
  full_freq : Option (List ℚ)

/-- Maximum of a coordinate's values (xarray `.max()`); 0 for an empty axis. -/
def listMax : List ℚ → ℚ
  | [] => 0
  | x :: xs => xs.foldl max x

/-- Minimum of a coordinate's values (xarray `.min()`); 0 for an empty axis. -/
def listMin : List ℚ → ℚ
  | [] => 0
  | x :: xs => xs.foldl min x

/-- The `sweep_span` computation of `_extract_qubit_fit_metrics` (lines
240-245): dataset-wide max minus min of the detuning axis, falling back to
the full-frequency axis, else 0.0.  It never reads the per-qubit slice. -/
def sweepSpanOf (fit : FitDataset) : ℚ :=
  match fit.detuning with
  | some coords => listMax coords - listMin coords
  | none =>
    match fit.full_freq with
    | some coords => listMax coords - listMin coords
    | none => 0.0

/-- Embedding of `_extract_qubit_fit_metrics` (analysis.py lines 220-257).
The 8-ary match mirrors Python's evaluation order: the fitter dictionary is
indexed first (line 237), then the dataset variables are read in the order
of the dict literal, then the two quality metrics; the first missing one
raises.  Line 254 negates the raw `opx_bandwidth_artifact` flag. -/
def extractQubitFitMetrics (fit : FitDataset) (fitters : String → Option S21Resonator)
    (qubit_name : String) : Except PyError Metrics :=
  match fitters qubit_name with
  | none => Except.error (PyError.keyError qubit_name)
  | some fitter =>
    let sweep_span : ℚ := sweepSpanOf fit
    match fit.num_peaks, fit.snr, fit.fwhm, fit.asymmetry, fit.skewness,
        fit.opx_bandwidth_artifact, lookupMetric fitter.quality_metrics "nrmse",
        lookupMetric fitter.quality_metrics "r_squared" with
    | none, _, _, _, _, _, _, _ => Except.error (PyError.attributeError "num_peaks")
    | some _, none, _, _, _, _, _, _ => Except.error (PyError.attributeError "snr")
    | some _, some _, none, _, _, _, _, _ => Except.error (PyError.attributeError "fwhm")
    | some _, some _, some _, none, _, _, _, _ => Except.error (PyError.attributeError "asymmetry")
    | some _, some _, some _, some _, none, _, _, _ => Except.error (PyError.attributeError "skewness")
    | some _, some _, some _, some _, some _, none, _, _ => Except.error (PyError.attributeError "opx_bandwidth_artifact")
    | some _, some _, some _, some _, some _, some _, none, _ => Except.error (PyError.keyError "nrmse")
    | some _, some _, some _, some _, some _, some _, some _, none => Except.error (PyError.keyError "r_squared")
    | some num_peaksV, some snrV, some fwhmV, some asymmetryV, some skewnessV,
        some artifactV, some nrmseV, some r_squaredV =>
      Except.ok ⟨num_peaksV qubit_name, snrV qubit_name, fwhmV qubit_name, sweep_span,
        some (asymmetryV qubit_name), some (skewnessV qubit_name),
        !(artifactV qubit_name), nrmseV, r_squaredV⟩

/-- Quality metrics of a healthy fitter object. -/
def qmOk : List (String × ℚ) := [("nrmse", 0.05), ("r_squared", 0.95)]

/-- A fitter map that knows every qubit. -/
def fittersOk : String → Option S21Resonator := fun _ => some ⟨qmOk⟩

/-- A raw bandwidth-artifact flag that is true exactly for qubit q1. -/
def rawArtifact : String → Bool := fun q => q == "q1"

/-- A complete two-qubit fit dataset (no sweep axes, so sweep_span is 0.0). -/
def fitSmall : FitDataset :=
  ⟨["q1", "q2"], some (fun _ => 1), some (fun _ => 10), some (fun _ => 100000),
   some (fun _ => 1), some (fun _ => 0.1), some rawArtifact, none, none⟩

/-- The same dataset with the `snr` variable missing. -/
def fitMissingSnr : FitDataset :=
  ⟨["q1", "q2"], some (fun _ => 1), none, some (fun _ => 100000),
   some (fun _ => 1), some (fun _ => 0.1), some rawArtifact, none, none⟩

/-- The metrics `_extract_qubit_fit_metrics` produces for q1 of `fitSmall`. -/
def mQ1 : Metrics :=
  ⟨1, 10, 100000, 0.0, some 1, some 0.1, !(rawArtifact "q1"), 0.05, 0.95⟩

/-- The metrics `_extract_qubit_fit_metrics` produces for q2 of `fitSmall`. -/
def mQ2 : Metrics :=
  ⟨1, 10, 100000, 0.0, some 1, some 0.1, !(rawArtifact "q2"), 0.05, 0.95⟩

/-- Modelled from the spec, section 4.2: the `ClassifierConfig` record that
claim C5 describes, enumerating ten tunable thresholds including
`nrmse_threshold` and `r_squared_threshold`.  (The code has no such record:
its classifier takes only eight threshold parameters.) -/
structure ClassifierConfig where
  snr_min : ℚ
  snr_distorted : ℚ
  asymmetry_min : ℚ
  asymmetry_max : ℚ
  skewness_max : ℚ
  distorted_fraction_low_snr : ℚ
  distorted_fraction_high_snr : ℚ
  fwhm_absolute_threshold_hz : ℚ
  nrmse_threshold : ℚ
  r_squared_threshold : ℚ
deriving DecidableEq

/-- The default configuration values listed in the spec, section 4.2. -/
def defaultClassifierConfig : ClassifierConfig :=
  ⟨2.5, 5.0, 0.4, 2.5, 1.5, 0.2, 0.3, 1e6, 0.14, 0.90⟩

/-- The eight thresholds of the configuration that the code's classifier
actually accepts as parameters. -/
def ClassifierConfig.toThresholds (c : ClassifierConfig) : Thresholds :=
  ⟨c.snr_min, c.snr_distorted, c.asymmetry_min, c.asymmetry_max, c.skewness_max,
   c.distorted_fraction_low_snr, c.distorted_fraction_high_snr,
   c.fwhm_absolute_threshold_hz⟩

/-- Modelled from the spec, section 4.2: the classifier claim C5 describes, in
which rule 1 also reads its two thresholds from the per-call configuration.
Rules and strings are otherwise those of `_determine_resonator_outcome`. -/
def classifyWithConfig (metrics : Metrics) (c : ClassifierConfig) : String :=
  if metrics.r_squared > c.r_squared_threshold ∧ metrics.nrmse < c.nrmse_threshold then
    "successful"
  else if metrics.snr < c.snr_min then
    "The SNR isn't large enough, consider increasing the number of shots"
  else if metrics.opx_bandwidth_artifact then
    "OPX bandwidth artifact detected, check your experiment bandwidth settings"
  else if metrics.num_peaks > 1 then
    "Several peaks were detected"
  else if metrics.num_peaks = 0 then
    (if metrics.snr < c.snr_min then
      "The SNR isn't large enough, consider increasing the number of shots and ensure you are looking at the correct frequency range"
    else
      "No peaks were detected, consider changing the frequency range")
  else if isPeakShapeDistorted metrics.asymmetry metrics.skewness
      c.asymmetry_min c.asymmetry_max c.skewness_max then
    "The peak shape is distorted"
  else if isPeakTooWide metrics.fwhm metrics.sweep_span metrics.snr
      c.snr_distorted c.distorted_fraction_low_snr c.distorted_fraction_high_snr
      c.fwhm_absolute_threshold_hz then
    (if metrics.snr < c.snr_distorted then
      "The SNR isn't large enough and the peak shape is distorted"
    else
      "Distorted peak detected")
  else
    "successful"

/-- A per-call override of r_squared_threshold: 0.99 instead of 0.90. -/
def cfgStrict : ClassifierConfig := { defaultClassifierConfig with r_squared_threshold := 0.99 }

/-- A record whose fit quality (0.95) sits between the default and the
overridden r_squared threshold, with low SNR. -/
def mBetween : Metrics := ⟨1, 1, 100000, 100000000, some 1, some 0.1, false, 0.05, 0.95⟩

/-- The per-qubit result record of analysis.py (dataclass FitParameters). -/
structure FitParameters where
  frequency : ℚ
  fwhm : ℚ
  outcome : String
deriving DecidableEq

/-- What `log_fitted_results` accepts per qubit: a structured FitParameters
(which has an `outcome` attribute) or a loosely-typed dictionary read with
`.get` and defaults (line 54's hasattr check distinguishes the two). -/
inductive LoggedResult where
  | params (p : FitParameters)
  | record (outcome : Option String) (frequency : Option ℚ) (fwhm : Option ℚ)
deriving DecidableEq

/-- Fixed-point decimal formatting of a rational, modelling Python's
`f"{x:.Nf}"` for N >= 1.  Python rounds the IEEE double half-to-even; on the
exact decimal values exercised here no tie occurs, so `round` agrees. -/
def formatFixed (x : ℚ) (d : ℕ) : String :=
  let n : ℤ := round (x * (10 : ℚ) ^ d)
  let sign := if n < 0 then "-" else ""
  let fpStr := toString (n.natAbs % 10 ^ d)
  sign ++ toString (n.natAbs / 10 ^ d) ++ "." ++
    String.mk (List.replicate (d - fpStr.length) '0') ++ fpStr

/-- Embedding of the line `log_fitted_results` emits for one qubit
(analysis.py lines 50-72): the f-string prefix ends in ": " and the appended
status token starts with another space. -/
def logLine (qubit_name : String) (results : LoggedResult) : String :=
  let status_line := "Results for qubit " ++ qubit_name ++ ": "
  let info :=
    match results with
    | LoggedResult.params p => (p.outcome, p.frequency, p.fwhm)
    | LoggedResult.record o f w => (o.getD "unknown", f.getD 0.0, w.getD 0.0)
  let status_line2 :=
    if info.1 = "successful" then status_line ++ " SUCCESS!\n"
    else status_line ++ " FAIL! Reason: " ++ info.1 ++ "\n"
  let freq_str := "\tResonator frequency: " ++ formatFixed (info.2.1 * 1e-9) 3 ++ " GHz | "
  let fwhm_str := "FWHM: " ++ formatFixed (info.2.2 * 1e-3) 1 ++ " kHz | "
  status_line2 ++ freq_str ++ fwhm_str

/-- Embedding of `log_fitted_results`: one `log_callable` invocation per
qubit, in the insertion order of the results mapping; the returned list is
the sequence of emitted lines. -/
def logFittedResults (fit_results : List (String × LoggedResult)) : List String :=
  fit_results.map fun p => logLine p.1 p.2

/-- Modelled from claim C9's wording: the emitted line with a single space
between the colon and the SUCCESS!/FAIL! token. -/
def claimedLogLine (qubit_name : String) (results : LoggedResult) : String :=
  let info :=
    match results with
    | LoggedResult.params p => (p.outcome, p.frequency, p.fwhm)
    | LoggedResult.record o f w => (o.getD "unknown", f.getD 0.0, w.getD 0.0)
  "Results for qubit " ++ qubit_name ++ ": " ++
    (if info.1 = "successful" then "SUCCESS!" else "FAIL! Reason: " ++ info.1) ++
    "\n\tResonator frequency: " ++ formatFixed (info.2.1 / 1e9) 3 ++
    " GHz | FWHM: " ++ formatFixed (info.2.2 / 1e3) 1 ++ " kHz | "

/-- The amended template: identical to the claim's except for the two spaces
between the colon and the status token. -/
def amendedLogLine (qubit_name : String) (results : LoggedResult) : String :=
  let info :=
    match results with
    | LoggedResult.params p => (p.outcome, p.frequency, p.fwhm)
    | LoggedResult.record o f w => (o.getD "unknown", f.getD 0.0, w.getD 0.0)
  "Results for qubit " ++ qubit_name ++ ":  " ++
    (if info.1 = "successful" then "SUCCESS!" else "FAIL! Reason: " ++ info.1) ++
    "\n\tResonator frequency: " ++ formatFixed (info.2.1 / 1e9) 3 ++
    " GHz | FWHM: " ++ formatFixed (info.2.2 / 1e3) 1 ++ " kHz | "

/-- A successful FitParameters record at 5.8 GHz with 1.5 kHz FWHM. -/
def resOk : LoggedResult := LoggedResult.params ⟨5800000000, 1500, "successful"⟩

/-- C1: a metrics record with r_squared above 0.90 and nrmse below 0.14 is
classified "successful" whatever the other metrics and whatever threshold
overrides are passed: the first return of `_determine_resonator_outcome`
fires before every later rule. -/
theorem c1_rule1_short_circuits (m : Metrics) (t : Thresholds)
    (hr : m.r_squared > (0.90 : ℚ)) (hn : m.nrmse < (0.14 : ℚ)) :
    determineResonatorOutcome m t = "successful" := by
  unfold determineResonatorOutcome
  rw [if_pos]
  exact ⟨hr, hn⟩

/-- Witness for C1 at Scenario A. -/
theorem c1_rule1_short_circuits_witness :
    scenA.r_squared > (0.90 : ℚ) ∧ scenA.nrmse < (0.14 : ℚ) ∧
      determineResonatorOutcome scenA defaultThresholds = "successful" :=
  ⟨by norm_num [scenA], by norm_num [scenA],
   c1_rule1_short_circuits scenA defaultThresholds (by norm_num [scenA]) (by norm_num [scenA])⟩

/-- C2: for every metrics record and every threshold record the classifier
returns an element of its fixed list of outcome strings; as a total Lean
function it raises nothing and is deterministic. -/
theorem c2_total_fixed_outcomes (m : Metrics) (t : Thresholds) :
    determineResonatorOutcome m t ∈ outcomeStrings := by
  unfold determineResonatorOutcome
  split_ifs <;> decide

/-- C3: the low-SNR message of the zero-peaks rule is dead code: no input
produces it, because rule 2 already returned whenever `snr < snr_min`; and
whenever rule 5 is reached with zero peaks, the generic no-peaks message is
returned. -/
theorem c3_rule5_low_snr_unreachable (m : Metrics) (t : Thresholds) :
    determineResonatorOutcome m t ≠
      "The SNR isn't large enough, consider increasing the number of shots and ensure you are looking at the correct frequency range" ∧
    (m.num_peaks = 0 → ¬(m.snr < t.snr_min) → m.opx_bandwidth_artifact = false →
      ¬(m.r_squared > R_SQUARED_THRESHOLD ∧ m.nrmse < NRMSE_THRESHOLD) →
      determineResonatorOutcome m t =
        "No peaks were detected, consider changing the frequency range") := by
  constructor
  · unfold determineResonatorOutcome
    split_ifs <;> decide
  · intro h0 hs ho hr
    simp [determineResonatorOutcome, h0, hs, ho, hr]

/-- Witness for C3: a concrete zero-peaks record gets the generic message. -/
theorem c3_rule5_low_snr_unreachable_witness :
    determineResonatorOutcome scenNoPeaks defaultThresholds ≠
      "The SNR isn't large enough, consider increasing the number of shots and ensure you are looking at the correct frequency range" ∧
    determineResonatorOutcome scenNoPeaks defaultThresholds =
      "No peaks were detected, consider changing the frequency range" :=
  ⟨(c3_rule5_low_snr_unreachable scenNoPeaks defaultThresholds).1,
   (c3_rule5_low_snr_unreachable scenNoPeaks defaultThresholds).2
     rfl (by norm_num [scenNoPeaks, defaultThresholds, SNR_MIN]) rfl
     (by norm_num [scenNoPeaks, R_SQUARED_THRESHOLD, NRMSE_THRESHOLD])⟩

/-- Auxiliary: the Bool returned by `_is_peak_too_wide` as a proposition. -/
lemma isPeakTooWide_eq_true_iff (fwhm sweep_span snr snr_distorted dl dh th : ℚ) :
    isPeakTooWide fwhm sweep_span snr snr_distorted dl dh th = true ↔
      ((sweep_span > 0 ∧ fwhm / sweep_span > (if snr < snr_distorted then dl else dh)) ∨
        fwhm > th) := by
  simp [isPeakTooWide]

/-- Auxiliary: once rules 1-6 have all failed, the outcome is decided by
`_is_peak_too_wide` alone. -/
lemma outcome_rule7 (m : Metrics) (t : Thresholds)
    (h1 : ¬(m.r_squared > R_SQUARED_THRESHOLD ∧ m.nrmse < NRMSE_THRESHOLD))
    (h2 : ¬(m.snr < t.snr_min))
    (h3 : m.opx_bandwidth_artifact = false)
    (h4 : ¬(m.num_peaks > 1))
    (h5 : m.num_peaks ≠ 0)
    (h6 : isPeakShapeDistorted m.asymmetry m.skewness
        t.asymmetry_min t.asymmetry_max t.skewness_max = false) :
    determineResonatorOutcome m t =
      (if isPeakTooWide m.fwhm m.sweep_span m.snr t.snr_distorted
          t.distorted_fraction_low_snr t.distorted_fraction_high_snr
          t.fwhm_absolute_threshold then
        (if m.snr < t.snr_distorted then
          "The SNR isn't large enough and the peak shape is distorted"
        else
          "Distorted peak detected")
      else "successful") := by
  unfold determineResonatorOutcome
  rw [if_neg h1, if_neg h2, if_neg (by simp [h3]), if_neg h4, if_neg h5,
    if_neg (by simp [h6])]

/-- C4: for a record on which rules 1-6 all fail, the outcome is a distortion
message exactly when the peak is too wide in the sense of `_is_peak_too_wide`
(relative criterion only when `sweep_span > 0`, with the SNR-dependent
fraction, or the absolute FWHM threshold), and a too-wide peak yields the
low-SNR-and-distorted message iff `snr < snr_distorted`. -/
theorem c4_rule7_width_criterion (m : Metrics) (t : Thresholds)
    (h1 : ¬(m.r_squared > R_SQUARED_THRESHOLD ∧ m.nrmse < NRMSE_THRESHOLD))
    (h2 : ¬(m.snr < t.snr_min))
    (h3 : m.opx_bandwidth_artifact = false)
    (h4 : ¬(m.num_peaks > 1))
    (h5 : m.num_peaks ≠ 0)
    (h6 : isPeakShapeDistorted m.asymmetry m.skewness
        t.asymmetry_min t.asymmetry_max t.skewness_max = false) :
    ((determineResonatorOutcome m t = "The SNR isn't large enough and the peak shape is distorted" ∨
      determineResonatorOutcome m t = "Distorted peak detected") ↔
      ((m.sweep_span > 0 ∧ m.fwhm / m.sweep_span >
          (if m.snr < t.snr_distorted then t.distorted_fraction_low_snr
           else t.distorted_fraction_high_snr)) ∨
        m.fwhm > t.fwhm_absolute_threshold)) ∧
    (((m.sweep_span > 0 ∧ m.fwhm / m.sweep_span >
          (if m.snr < t.snr_distorted then t.distorted_fraction_low_snr
           else t.distorted_fraction_high_snr)) ∨
        m.fwhm > t.fwhm_absolute_threshold) →
      determineResonatorOutcome m t =
        (if m.snr < t.snr_distorted then
          "The SNR isn't large enough and the peak shape is distorted"
         else "Distorted peak detected")) := by
  have he := outcome_rule7 m t h1 h2 h3 h4 h5 h6
  have hiff := isPeakTooWide_eq_true_iff m.fwhm m.sweep_span m.snr t.snr_distorted
    t.distorted_fraction_low_snr t.distorted_fraction_high_snr t.fwhm_absolute_threshold
  rw [he]
  by_cases hw : isPeakTooWide m.fwhm m.sweep_span m.snr t.snr_distorted
      t.distorted_fraction_low_snr t.distorted_fraction_high_snr
      t.fwhm_absolute_threshold = true
  · rw [if_pos hw]
    refine ⟨⟨fun _ => hiff.mp hw, fun _ => ?_⟩, fun _ => rfl⟩
    by_cases hsd : m.snr < t.snr_distorted
    · rw [if_pos hsd]; exact Or.inl rfl
    · rw [if_neg hsd]; exact Or.inr rfl
  · rw [if_neg hw]
    refine ⟨⟨fun habs => ?_, fun hp => absurd (hiff.mpr hp) hw⟩,
      fun hp => absurd (hiff.mpr hp) hw⟩
    rcases habs with h | h <;> exact absurd h (by decide)

/-- Witness for C4 at Scenario E: relative width fine, absolute width bad. -/
theorem c4_rule7_width_criterion_witness :
    determineResonatorOutcome scenE defaultThresholds = "Distorted peak detected" := by
  have h := (c4_rule7_width_criterion scenE defaultThresholds
    (by norm_num [scenE, R_SQUARED_THRESHOLD, NRMSE_THRESHOLD])
    (by norm_num [scenE, defaultThresholds, SNR_MIN])
    rfl
    (by norm_num [scenE])
    (by norm_num [scenE])
    (by norm_num [isPeakShapeDistorted, scenE, defaultThresholds, ASYMMETRY_MIN,
      ASYMMETRY_MAX, SKEWNESS_MAX, abs_of_nonneg])).2
    (Or.inr (by norm_num [scenE, defaultThresholds, FWHM_ABSOLUTE_THRESHOLD_HZ]))
  rw [h, if_neg (by norm_num [scenE, defaultThresholds, SNR_DISTORTED])]

/-- C8: a record classified as too wide at rule 7 becomes "successful" when
its fwhm is lowered below both the relative bound `sweep_span *
distorted_fraction` and the absolute threshold, everything else unchanged. -/
theorem c8_fwhm_monotonic (m : Metrics) (t : Thresholds) (fwhm2 : ℚ)
    (h1 : ¬(m.r_squared > R_SQUARED_THRESHOLD ∧ m.nrmse < NRMSE_THRESHOLD))
    (h2 : ¬(m.snr < t.snr_min))
    (h3 : m.opx_bandwidth_artifact = false)
    (h4 : ¬(m.num_peaks > 1))
    (h5 : m.num_peaks ≠ 0)
    (h6 : isPeakShapeDistorted m.asymmetry m.skewness
        t.asymmetry_min t.asymmetry_max t.skewness_max = false)
    (hw : determineResonatorOutcome m t = "The SNR isn't large enough and the peak shape is distorted" ∨
          determineResonatorOutcome m t = "Distorted peak detected")
    (hrel : fwhm2 < m.sweep_span *
      (if m.snr < t.snr_distorted then t.distorted_fraction_low_snr
       else t.distorted_fraction_high_snr))
    (habs : fwhm2 < t.fwhm_absolute_threshold) :
    determineResonatorOutcome { m with fwhm := fwhm2 } t = "successful" := by
  have he2 := outcome_rule7 { m with fwhm := fwhm2 } t h1 h2 h3 h4 h5 h6
  rw [he2, if_neg ?_]
  rw [isPeakTooWide_eq_true_iff]
  rintro (⟨hs, hdiv⟩ | habs2)
  · have hlt : fwhm2 / m.sweep_span <
        (if m.snr < t.snr_distorted then t.distorted_fraction_low_snr
         else t.distorted_fraction_high_snr) := by
      rw [div_lt_iff₀ hs, mul_comm]
      exact hrel
    exact lt_asymm hlt hdiv
  · exact lt_asymm habs habs2

/-- Witness for C8: lowering Scenario E's fwhm to 1e5 flips the outcome. -/
theorem c8_fwhm_monotonic_witness :
    determineResonatorOutcome { scenE with fwhm := 100000 } defaultThresholds = "successful" :=
  c8_fwhm_monotonic scenE defaultThresholds 100000
    (by norm_num [scenE, R_SQUARED_THRESHOLD, NRMSE_THRESHOLD])
    (by norm_num [scenE, defaultThresholds, SNR_MIN])
    rfl
    (by norm_num [scenE])
    (by norm_num [scenE])
    (by norm_num [isPeakShapeDistorted, scenE, defaultThresholds, ASYMMETRY_MIN,
      ASYMMETRY_MAX, SKEWNESS_MAX, abs_of_nonneg])
    (Or.inr (by
      norm_num [determineResonatorOutcome, isPeakShapeDistorted, isPeakTooWide,
        scenE, defaultThresholds, SNR_MIN, SNR_DISTORTED, ASYMMETRY_MIN,
        ASYMMETRY_MAX, SKEWNESS_MAX, DISTORTED_FRACTION_LOW_SNR,
        DISTORTED_FRACTION_HIGH_SNR, FWHM_ABSOLUTE_THRESHOLD_HZ,
        NRMSE_THRESHOLD, R_SQUARED_THRESHOLD, abs_of_nonneg]))
    (by norm_num [scenE, defaultThresholds, SNR_DISTORTED, DISTORTED_FRACTION_HIGH_SNR])
    (by norm_num [defaultThresholds, FWHM_ABSOLUTE_THRESHOLD_HZ])

/-- Auxiliary: a left fold by min stays below a left fold by max. -/
lemma foldl_min_le_foldl_max (xs : List ℚ) :
    ∀ a b : ℚ, b ≤ a → xs.foldl min b ≤ xs.foldl max a := by
  induction xs with
  | nil => intro a b h; simpa using h
  | cons x xs ih =>
    intro a b h
    exact ih (max a x) (min b x) ((min_le_left b x).trans (h.trans (le_max_left a x)))

/-- Auxiliary: the coordinate minimum is at most the coordinate maximum. -/
lemma listMin_le_listMax (l : List ℚ) : listMin l ≤ listMax l := by
  cases l with
  | nil => exact le_refl 0
  | cons x xs => exact foldl_min_le_foldl_max xs x x (le_refl x)

/-- Auxiliary: the dataset-wide sweep span is never negative. -/
lemma sweepSpanOf_nonneg (fit : FitDataset) : 0 ≤ sweepSpanOf fit := by
  obtain ⟨qs, np, snrF, fwF, asymF, skewF, opxF, detF, ffF⟩ := fit
  unfold sweepSpanOf
  rcases detF with _ | l
  · rcases ffF with _ | l2
    · norm_num
    · exact sub_nonneg.mpr (listMin_le_listMax l2)
  · exact sub_nonneg.mpr (listMin_le_listMax l)

/-- Auxiliary: a successful extraction reports the dataset-wide sweep span. -/
lemma extract_ok_sweep_span (fit : FitDataset) (fitters : String → Option S21Resonator)
    (q : String) (m : Metrics)
    (hok : extractQubitFitMetrics fit fitters q = Except.ok m) :
    m.sweep_span = sweepSpanOf fit := by
  unfold extractQubitFitMetrics at hok
  repeat' split at hok
  all_goals simp_all
  all_goals (subst hok; rfl)

/-- C6: whenever extraction succeeds, the stored `opx_bandwidth_artifact` is
the logical NOT of the raw dataset flag (line 254 of analysis.py). -/
theorem c6_artifact_inverted (fit : FitDataset) (fitters : String → Option S21Resonator)
    (q : String) (raw : String → Bool) (m : Metrics)
    (hraw : fit.opx_bandwidth_artifact = some raw)
    (hok : extractQubitFitMetrics fit fitters q = Except.ok m) :
    m.opx_bandwidth_artifact = !(raw q) := by
  unfold extractQubitFitMetrics at hok
  repeat' split at hok
  all_goals simp_all
  all_goals (subst hok; rfl)

/-- Witness for C6: the raw flag of q1 reads true, the stored value is false. -/
theorem c6_artifact_inverted_witness :
    mQ1.opx_bandwidth_artifact = !(rawArtifact "q1") :=
  c6_artifact_inverted fitSmall fittersOk "q1" rawArtifact mQ1 rfl rfl

/-- C10: two successful extractions from one fit dataset report the same
sweep span, and the span is non-negative: it is computed from the
dataset-wide coordinate, never from the per-qubit slice. -/
theorem c10_sweep_span_uniform (fit : FitDataset) (fitters : String → Option S21Resonator)
    (q1 q2 : String) (m1 m2 : Metrics)
    (h1 : extractQubitFitMetrics fit fitters q1 = Except.ok m1)
    (h2 : extractQubitFitMetrics fit fitters q2 = Except.ok m2) :
    m1.sweep_span = m2.sweep_span ∧ 0 ≤ m1.sweep_span := by
  have e1 := extract_ok_sweep_span fit fitters q1 m1 h1
  have e2 := extract_ok_sweep_span fit fitters q2 m2 h2
  rw [e1, e2]
  exact ⟨rfl, sweepSpanOf_nonneg fit⟩

/-- Witness for C10 on the two qubits of `fitSmall`. -/
theorem c10_sweep_span_uniform_witness :
    mQ1.sweep_span = mQ2.sweep_span ∧ 0 ≤ mQ1.sweep_span :=
  c10_sweep_span_uniform fitSmall fittersOk "q1" "q2" mQ1 mQ2 rfl rfl

/-- C7 (amended): with the qubit present in the fitter map, extraction
succeeds iff every required field is present, and any failure is the plain
AttributeError / KeyError of the first missing field - an error value that
names the field (or key) only, never the qubit, and is not a dedicated
MissingFieldError. -/
theorem c7_missing_field_error (fit : FitDataset) (fitters : String → Option S21Resonator)
    (q : String) (fitter : S21Resonator) (hf : fitters q = some fitter) :
    ((∃ m, extractQubitFitMetrics fit fitters q = Except.ok m) ↔
      (fit.num_peaks.isSome ∧ fit.snr.isSome ∧ fit.fwhm.isSome ∧ fit.asymmetry.isSome ∧
       fit.skewness.isSome ∧ fit.opx_bandwidth_artifact.isSome ∧
       (lookupMetric fitter.quality_metrics "nrmse").isSome ∧
       (lookupMetric fitter.quality_metrics "r_squared").isSome)) ∧
    (∀ e, extractQubitFitMetrics fit fitters q = Except.error e →
      e ∈ [PyError.attributeError "num_peaks", PyError.attributeError "snr",
           PyError.attributeError "fwhm", PyError.attributeError "asymmetry",
           PyError.attributeError "skewness", PyError.attributeError "opx_bandwidth_artifact",
           PyError.keyError "nrmse", PyError.keyError "r_squared"]) := by
  obtain ⟨qs, np, snrF, fwF, asymF, skewF, opxF, detF, ffF⟩ := fit
  rcases np with _ | a <;> rcases snrF with _ | b <;> rcases fwF with _ | c <;>
    rcases asymF with _ | d <;> rcases skewF with _ | e2 <;> rcases opxF with _ | f2 <;>
    rcases hl1 : lookupMetric fitter.quality_metrics "nrmse" with _ | g2 <;>
    rcases hl2 : lookupMetric fitter.quality_metrics "r_squared" with _ | k2 <;>
    simp_all [extractQubitFitMetrics]

/-- Witness for C7: the error for the dataset missing `snr` names that field. -/
theorem c7_missing_field_error_witness :
    PyError.attributeError "snr" ∈
      [PyError.attributeError "num_peaks", PyError.attributeError "snr",
       PyError.attributeError "fwhm", PyError.attributeError "asymmetry",
       PyError.attributeError "skewness", PyError.attributeError "opx_bandwidth_artifact",
       PyError.keyError "nrmse", PyError.keyError "r_squared"] :=
  (c7_missing_field_error fitMissingSnr fittersOk "q1" ⟨qmOk⟩ rfl).2
    (PyError.attributeError "snr") rfl

/-- Counterexample refuting C7 as stated: the extraction error for a dataset
whose `snr` variable is absent is the same plain AttributeError for two
different qubits - it is an AttributeError naming only the field, not a
MissingFieldError naming field and qubit. -/
theorem c7_counterexample :
    extractQubitFitMetrics fitMissingSnr fittersOk "q1" =
      Except.error (PyError.attributeError "snr") ∧
    extractQubitFitMetrics fitMissingSnr fittersOk "q2" =
      Except.error (PyError.attributeError "snr") ∧
    "q1" ≠ "q2" :=
  ⟨rfl, rfl, by decide⟩

/-- Counterexample refuting C5 as stated: overriding r_squared_threshold to
0.99 changes the outcome of the spec-modelled classifier, but the code's
classifier (whose rule 1 reads only the module constants) still returns
"successful" - the caller cannot influence rule 1's comparison. -/
theorem c5_counterexample :
    classifyWithConfig mBetween cfgStrict =
      "The SNR isn't large enough, consider increasing the number of shots" ∧
    determineResonatorOutcome mBetween cfgStrict.toThresholds = "successful" := by
  constructor
  · norm_num [classifyWithConfig, mBetween, cfgStrict, defaultClassifierConfig]
  · norm_num [determineResonatorOutcome, mBetween, R_SQUARED_THRESHOLD, NRMSE_THRESHOLD]

/-- C5 (amended): only the eight shape/width thresholds are per-call tunable,
and with the two fit-quality thresholds pinned at the module constants the
spec-modelled ten-field classifier coincides with the code's classifier for
every metrics record and every configuration. -/
theorem c5_amended_eight_tunable (m : Metrics) (c : ClassifierConfig)
    (hr : c.r_squared_threshold = R_SQUARED_THRESHOLD)
    (hn : c.nrmse_threshold = NRMSE_THRESHOLD) :
    classifyWithConfig m c = determineResonatorOutcome m c.toThresholds := by
  simp only [classifyWithConfig, determineResonatorOutcome,
    ClassifierConfig.toThresholds, hr, hn]

/-- Witness for C5 (amended) at the default configuration. -/
theorem c5_amended_eight_tunable_witness :
    classifyWithConfig mBetween defaultClassifierConfig =
      determineResonatorOutcome mBetween defaultClassifierConfig.toThresholds :=
  c5_amended_eight_tunable mBetween defaultClassifierConfig rfl rfl

/-- Auxiliary: evaluate `formatFixed` once the rounding step is known. -/
lemma formatFixed_of_round (x : ℚ) (d : ℕ) (n : ℤ)
    (hn : round (x * (10 : ℚ) ^ d) = n) :
    formatFixed x d =
      (if n < 0 then "-" else "") ++ toString (n.natAbs / 10 ^ d) ++ "." ++
        String.mk (List.replicate (d - (toString (n.natAbs % 10 ^ d)).length) '0') ++
        toString (n.natAbs % 10 ^ d) := by
  unfold formatFixed
  rw [hn]

/-- Auxiliary: the code's line equals the two-space template. -/
lemma logLine_eq_amended (q : String) (r : LoggedResult) :
    logLine q r = amendedLogLine q r := by
  have h9 : ((1e9 : ℚ))⁻¹ = 1e-9 := by norm_num
  have h3 : ((1e3 : ℚ))⁻¹ = 1e-3 := by norm_num
  cases r with
  | params p =>
    simp only [logLine, amendedLogLine, div_eq_mul_inv, h9, h3]
    split_ifs with h <;> (simp only [String.append_assoc]; congr 2)
  | record o f w =>
    simp only [logLine, amendedLogLine, div_eq_mul_inv, h9, h3]
    split_ifs with h <;> (simp only [String.append_assoc]; congr 2)

/-- Counterexample refuting C9 as stated: the emitted line has two spaces
between the colon and SUCCESS!, not one (line 51's f-string ends in a space
and line 64 prepends another). -/
theorem c9_counterexample :
    logLine "q0" resOk ≠ claimedLogLine "q0" resOk ∧
    logLine "q0" resOk =
      "Results for qubit q0:  SUCCESS!\n\tResonator frequency: 5.800 GHz | FWHM: 1.5 kHz | " := by
  have hf3 : formatFixed ((5800000000 : ℚ) * 1e-9) 3 = "5.800" := by
    rw [formatFixed_of_round _ _ 5800 (by norm_num [round_eq])]
    rfl
  have hf1 : formatFixed ((1500 : ℚ) * 1e-3) 1 = "1.5" := by
    rw [formatFixed_of_round _ _ 15 (by norm_num [round_eq])]
    rfl
  have hg3 : formatFixed ((5800000000 : ℚ) / 1e9) 3 = "5.800" := by
    rw [formatFixed_of_round _ _ 5800 (by norm_num [round_eq])]
    rfl
  constructor
  · simp only [logLine, claimedLogLine, resOk, hf3, hf1, hg3]
    decide
  · simp only [logLine, resOk, hf3, hf1]
    decide

/-- C9 (amended): the logger emits exactly one line per qubit, in insertion
order, and each line is exactly the amended template (two spaces after the
colon), for structured records and for loosely-typed records alike. -/
theorem c9_one_line_per_qubit (rs : List (String × LoggedResult)) :
    logFittedResults rs = rs.map (fun p => amendedLogLine p.1 p.2) ∧
    (logFittedResults rs).length = rs.length := by
  constructor
  · unfold logFittedResults
    exact List.map_congr_left fun p _ => logLine_eq_amended p.1 p.2
  · simp [logFittedResults]
